import Mathlib

/-!
Verification of the client-side display and validation utilities in
static/js/main.js, shallowly embedded in Lean.

The file embeds the four utilities of the source file:

* formatFileSize: byte counts are Nat, the JS floating-point expression
  Math.floor(Math.log bytes / Math.log 1024) is embedded as the exact
  integer floor logarithm base 1024, and the JS expression
  Math.round(v * 100) / 100 followed by number-to-string conversion is
  embedded as exact rational rounding to an integer cent count followed by
  decimal rendering with trailing fractional zeros dropped, which is how a
  double of the form m / 100 in the relevant range prints.
* formatDate: the host Date parsing and locale rendering are external
  collaborators, so they are parameters gathered in a HostEnv record.
* showNotification: the DOM container and timer queue are an explicit
  PageState record, and the scheduled jQuery callback is a timer action
  applied to the container when the delay elapses.
* validateFile: a pure function on a FileDesc record.
-/

namespace MainJs

/-- Unit table of formatFileSize: const sizes = [Bytes, KB, MB, GB]. -/
def sizes : List String := ["Bytes", "KB", "MB", "GB"]

/-- Fuel-driven helper for the floor logarithm base 1024: counts how many
times 1024 divides the input before the value drops below 1024. The first
argument is fuel that only forces structural termination; it is never
exhausted when it starts at the input itself. -/
def log1024Aux : Nat → Nat → Nat
  | 0, _ => 0
  | fuel + 1, b => if b < 1024 then 0 else 1 + log1024Aux fuel (b / 1024)

/-- Exact value of the JS expression Math.floor(Math.log b / Math.log 1024)
on a positive integer b: the floor logarithm of b in base 1024. -/
def log1024 (b : Nat) : Nat := log1024Aux b b

/-- Decimal rendering of the JS value Math.round(v * 100) / 100 as a string:
the integer cent count m prints as m / 100 in decimal, with the fractional
part dropped when zero and a trailing fractional zero dropped, which is the
shortest round-trip printing JS uses for such a double. -/
def renderCents (m : Nat) : String :=
  if m % 100 = 0 then toString (m / 100)
  else if m % 10 = 0 then toString (m / 100) ++ "." ++ toString (m / 10 % 10)
  else toString (m / 100) ++ "." ++ (if m % 100 < 10 then "0" else "") ++ toString (m % 100)

/-- Embedding of formatFileSize from static/js/main.js: zero is special-cased
to the literal string, otherwise the unit index is the floor logarithm base
1024 of the byte count, the scaled value bytes / 1024 ^ i is rounded at the
hundredths place and rendered, and the unit is looked up in the sizes table.
An index past the table end is the JS undefined value, which prints as the
string undefined when concatenated. -/
def formatFileSize (bytes : Nat) : String :=
  if bytes = 0 then "0 Bytes"
  else
    renderCents (round ((bytes : ℚ) / 1024 ^ log1024 bytes * 100)).toNat
      ++ " " ++ sizes.getD (log1024 bytes) "undefined"

/-- Model of a parsed host Date value. Its internal form is irrelevant to
this component, which only passes it between the two host routines. -/
structure HostDate where
  epochMillis : Int

/-- Model of the host environment formatDate delegates to: the Date
constructor either parses the string to a date value or yields an Invalid
Date (none), and toLocaleString renders a valid date in the host locale or
produces a fixed implementation-defined display string on an Invalid Date. -/
structure HostEnv where
  parseDate : String → Option HostDate
  renderDate : HostDate → String
  invalidDateString : String

/-- Embedding of formatDate from static/js/main.js: new Date(dateString)
followed by toLocaleString, relative to a fixed host environment. No branch
raises an error; the codomain is String for every input. -/
def formatDate (env : HostEnv) (dateString : String) : String :=
  match env.parseDate dateString with
  | some d => env.renderDate d
  | none => env.invalidDateString

/-- Concrete host environment used to instantiate theorems that quantify
over environments: it parses nothing and uses the usual fallback text. -/
def hostEnvExample : HostEnv :=
  { parseDate := fun _ => none
    renderDate := fun _ => ""
    invalidDateString := "Invalid Date" }

/-- Model of a DOM element as far as this component observes it: whether it
matches the selector .alert, whether it is visible, and its content. -/
structure Elem where
  isAlert : Bool
  visible : Bool
  severity : String
  content : String
deriving DecidableEq

/-- The only timer action the component schedules: the setTimeout callback
of showNotification. -/
inductive TimerAction where
  | dismissAlerts
deriving DecidableEq

/-- Page state: the children of the target container (main .container) and
the pending timers, each a delay in milliseconds paired with its action. -/
structure PageState where
  container : List Elem
  timers : List (Nat × TimerAction)
deriving DecidableEq

/-- A page whose target container is empty with no pending timer. -/
def emptyPage : PageState := { container := [], timers := [] }

/-- Embedding of showNotification from static/js/main.js: builds the alert
banner fragment holding the message, prepends it to main .container, and
schedules the dismissal callback to run after 5000 milliseconds. -/
def showNotification (message : String) (type : String) (st : PageState) : PageState :=
  { container :=
      { isAlert := true, visible := true, severity := type, content := message } :: st.container
    timers := st.timers ++ [(5000, TimerAction.dismissAlerts)] }

/-- Effect of the scheduled callback of showNotification on the container.
The callback runs fadeOut on every element matching the selector .alert,
which hides each of them. The completion callback passed to fadeOut is an
arrow function, so the name this inside it is the this of the enclosing
scope (the window object), not the faded element, and the remove call on it
detaches nothing from the container. -/
def runTimerAction : TimerAction → List Elem → List Elem
  | TimerAction.dismissAlerts, es =>
      es.map fun e => if e.isAlert then { e with visible := false } else e

/-- Advance time past every scheduled delay: run all pending timers in
order against the container. -/
def elapseTimers (st : PageState) : PageState :=
  { container := st.timers.foldl (fun es t => runTimerAction t.2 es) st.container
    timers := [] }

/-- Number of container elements matching the removal selector .alert. -/
def alertCount (es : List Elem) : Nat := (es.filter fun e => e.isAlert).length

/-- File descriptor handed to validateFile: MIME type and size in bytes. -/
structure FileDesc where
  type : String
  size : Nat
deriving DecidableEq

/-- Validation result of validateFile: the source returns an object with
valid true and no message, or valid false with a reason message. -/
inductive ValidationResult where
  | valid : ValidationResult
  | invalid (message : String) : ValidationResult
deriving DecidableEq

/-- Allow-list of MIME types from validateFile in static/js/main.js. -/
def allowedTypes : List String :=
  ["image/jpeg", "image/png", "image/jpg", "video/mp4", "video/avi",
   "video/x-msvideo", "video/quicktime", "video/x-matroska"]

/-- Size ceiling from validateFile: 500MB. -/
def maxSize : Nat := 500 * 1024 * 1024

/-- Embedding of validateFile from static/js/main.js: the type check runs
first and returns the type error, then the size check, then the valid
result. -/
def validateFile (file : FileDesc) : ValidationResult :=
  if ! allowedTypes.contains file.type then
    ValidationResult.invalid "Invalid file type. Please upload an image or video."
  else if file.size > maxSize then
    ValidationResult.invalid "File size exceeds 500MB limit."
  else
    ValidationResult.valid

/-- State-passing embedding of a call to validateFile that also returns the
file descriptor as it stands after the call: the source body only reads
file.type and file.size and never assigns to the descriptor, so each return
statement threads the descriptor through unchanged. -/
def validateFileRun (file : FileDesc) : ValidationResult × FileDesc :=
  if ! allowedTypes.contains file.type then
    (ValidationResult.invalid "Invalid file type. Please upload an image or video.", file)
  else if file.size > maxSize then
    (ValidationResult.invalid "File size exceeds 500MB limit.", file)
  else
    (ValidationResult.valid, file)

/-- Unit index prescribed by the spec for formatByteSize: the floor logarithm
base 1024 of the byte count, written here as the interval case split over
the 4-entry unit table. -/
def specUnitIndex (b : Nat) : Nat :=
  if b < 1024 then 0
  else if b < 1024 ^ 2 then 1
  else if b < 1024 ^ 3 then 2
  else 3

/-- Rounding prescribed by the spec: the value is taken to the nearest
integer with ties moving away from zero. -/
def specRoundAway (q : ℚ) : ℤ :=
  if 0 ≤ q then ⌊q + 1 / 2⌋ else ⌈q - 1 / 2⌉

/-- Rendering prescribed by the spec: the rounded cent count written with up
to two decimal digits, the fractional part dropped when zero and a trailing
fractional zero dropped. -/
def specRender (m : Nat) : String :=
  if m % 100 = 0 then toString (m / 100)
  else if m % 100 % 10 = 0 then toString (m / 100) ++ "." ++ toString (m % 100 / 10)
  else toString (m / 100) ++ "." ++ (if m % 100 < 10 then "0" else "") ++ toString (m % 100)

/-- Model of formatByteSize written from the words of the spec, for
comparison against the embedding of the source: zero is the literal string,
otherwise the value scaled by the selected unit is rounded at the hundredths
place away from zero and rendered with the unit from the 4-entry table. -/
def formatByteSize_spec (b : Nat) : String :=
  if b = 0 then "0 Bytes"
  else
    specRender (specRoundAway ((b : ℚ) / 1024 ^ specUnitIndex b * 100)).toNat
      ++ " " ++ ["Bytes", "KB", "MB", "GB"].getD (specUnitIndex b) ""

/-! Helper lemmas shared by the claim theorems. -/

lemma log1024Aux_of_lt (fuel b : Nat) (h : b < 1024) : log1024Aux fuel b = 0 := by
  cases fuel with
  | zero => rfl
  | succ f => simp [log1024Aux, h]

lemma log1024Aux_of_ge (fuel b : Nat) (hf : 0 < fuel) (h : 1024 ≤ b) :
    log1024Aux fuel b = 1 + log1024Aux (fuel - 1) (b / 1024) := by
  cases fuel with
  | zero => exact absurd hf (by simp)
  | succ f => simp [log1024Aux, Nat.not_lt.mpr h]

lemma specUnitIndex_lt_four (b : Nat) : specUnitIndex b < 4 := by
  unfold specUnitIndex
  split_ifs <;> omega

lemma log1024_eq_specUnitIndex (b : Nat) (hb : 0 < b) (hlt : b < 1024 ^ 4) :
    log1024 b = specUnitIndex b := by
  have p2 : (1024 : ℕ) ^ 2 = 1048576 := by norm_num
  have p3 : (1024 : ℕ) ^ 3 = 1073741824 := by norm_num
  have p4 : (1024 : ℕ) ^ 4 = 1099511627776 := by norm_num
  unfold log1024 specUnitIndex
  rw [p2, p3]
  rw [p4] at hlt
  by_cases h1 : b < 1024
  · rw [if_pos h1, log1024Aux_of_lt b b h1]
  · rw [if_neg h1]
    by_cases h2 : b < 1048576
    · rw [if_pos h2, log1024Aux_of_ge b b (by omega) (by omega),
        log1024Aux_of_lt _ _ (by omega : b / 1024 < 1024)]
    · rw [if_neg h2]
      by_cases h3 : b < 1073741824
      · rw [if_pos h3, log1024Aux_of_ge b b (by omega) (by omega),
          log1024Aux_of_ge _ _ (by omega) (by omega : 1024 ≤ b / 1024),
          log1024Aux_of_lt _ _ (by omega : b / 1024 / 1024 < 1024)]
      · rw [if_neg h3, log1024Aux_of_ge b b (by omega) (by omega),
          log1024Aux_of_ge _ _ (by omega) (by omega : 1024 ≤ b / 1024),
          log1024Aux_of_ge _ _ (by omega) (by omega : 1024 ≤ b / 1024 / 1024),
          log1024Aux_of_lt _ _ (by omega : b / 1024 / 1024 / 1024 < 1024)]

lemma specRoundAway_eq_round (q : ℚ) (h : 0 ≤ q) : specRoundAway q = round q := by
  unfold specRoundAway
  rw [if_pos h, round_eq]

lemma renderCents_eq_specRender (m : Nat) : renderCents m = specRender m := by
  unfold renderCents specRender
  have h1 : m % 100 % 10 = m % 10 := by omega
  have h2 : m % 100 / 10 = m / 10 % 10 := by omega
  rw [h1, h2]

lemma formatFileSize_closedForm (b i cents : Nat) (hb : ¬ b = 0)
    (hlog : log1024 b = i) (hval : ((b : ℚ) / 1024 ^ i * 100) = (cents : ℚ)) :
    formatFileSize b = renderCents cents ++ " " ++ sizes.getD i "undefined" := by
  unfold formatFileSize
  rw [if_neg hb, hlog, hval, round_natCast, Int.toNat_natCast]

lemma renderCents_hundredMul (b : Nat) : renderCents (100 * b) = toString b := by
  unfold renderCents
  rw [if_pos (by omega : 100 * b % 100 = 0)]
  congr 1
  omega

/-! Claim theorems. -/

/-- C1: validateFile reports the type error whenever file.type is outside
the fixed allow-list, regardless of size, so the type check precedes the
size check; an allowed type with size above 500 * 1024 * 1024 reports the
size error; an allowed type at or below the ceiling is valid. -/
theorem validateFile_check_order (f : FileDesc) :
    (f.type ∉ allowedTypes →
      validateFile f =
        ValidationResult.invalid "Invalid file type. Please upload an image or video.") ∧
    (f.type ∈ allowedTypes → 500 * 1024 * 1024 < f.size →
      validateFile f = ValidationResult.invalid "File size exceeds 500MB limit.") ∧
    (f.type ∈ allowedTypes → f.size ≤ 500 * 1024 * 1024 →
      validateFile f = ValidationResult.valid) := by
  refine ⟨fun hmem => ?_, fun hmem hsz => ?_, fun hmem hsz => ?_⟩
  · simp [validateFile, hmem]
  · simp [validateFile, maxSize, hmem, hsz]
  · have hng : ¬ 500 * 1024 * 1024 < f.size := by omega
    simp [validateFile, maxSize, hmem, hng]

/-- C1 witness: a file that is both wrong-type and oversized reports the
type error. -/
theorem validateFile_check_order_witness :
    (FileDesc.mk "text/plain" (600 * 1024 * 1024)).type ∉ allowedTypes ∧
    validateFile (FileDesc.mk "text/plain" (600 * 1024 * 1024)) =
      ValidationResult.invalid "Invalid file type. Please upload an image or video." :=
  ⟨by decide, (validateFile_check_order (FileDesc.mk "text/plain" (600 * 1024 * 1024))).1
    (by decide)⟩

/-- C2: formatFileSize applied to 0 returns the literal string 0 Bytes,
through the special case and not through the logarithm. -/
theorem formatFileSize_zero : formatFileSize 0 = "0 Bytes" := rfl

/-- C3: the three concrete example values of formatFileSize. -/
theorem formatFileSize_examples :
    formatFileSize 1024 = "1 KB" ∧ formatFileSize 1536 = "1.5 KB" ∧
      formatFileSize 1048576 = "1 MB" := by
  refine ⟨?_, ?_, ?_⟩
  · rw [formatFileSize_closedForm 1024 1 100 (by decide) rfl (by norm_num)]
    decide
  · rw [formatFileSize_closedForm 1536 1 150 (by decide) rfl (by norm_num)]
    decide
  · rw [formatFileSize_closedForm 1048576 2 100 (by decide) rfl (by norm_num)]
    decide

/-- C4: every byte count below 1024 renders as the count itself followed by
the Bytes unit. -/
theorem formatFileSize_bytesRange (b : Nat) (h : b < 1024) :
    formatFileSize b = toString b ++ " Bytes" := by
  by_cases hb : b = 0
  · subst hb
    rfl
  · rw [formatFileSize_closedForm b 0 (100 * b) hb
      (log1024Aux_of_lt b b h) (by push_cast; ring)]
    rw [renderCents_hundredMul, String.append_assoc]
    congr 1

/-- C4 witness at the concrete input 5. -/
theorem formatFileSize_bytesRange_witness :
    5 < 1024 ∧ formatFileSize 5 = toString 5 ++ " Bytes" :=
  ⟨by decide, formatFileSize_bytesRange 5 (by decide)⟩

/-- C5: on every positive byte count below 1024 ^ 4, the source function
agrees with the function written from the words of the spec: unit index the
floor logarithm base 1024 into the 4-entry table, value scaled by the unit,
rounded at the hundredths place away from zero, rendered with up to two
decimal digits. -/
theorem formatFileSize_refines_spec (b : Nat) (hb : 0 < b) (hlt : b < 1024 ^ 4) :
    formatFileSize b = formatByteSize_spec b := by
  have hb0 : ¬ b = 0 := by omega
  have hlog := log1024_eq_specUnitIndex b hb hlt
  have h4 := specUnitIndex_lt_four b
  unfold formatFileSize formatByteSize_spec
  rw [if_neg hb0, if_neg hb0, hlog]
  have hq : (0 : ℚ) ≤ (b : ℚ) / 1024 ^ specUnitIndex b * 100 := by positivity
  rw [specRoundAway_eq_round _ hq, renderCents_eq_specRender]
  congr 1
  unfold sizes
  set i := specUnitIndex b with hi
  interval_cases i <;> rfl

/-- C5 witness at the concrete input 1536. -/
theorem formatFileSize_refines_spec_witness :
    0 < 1536 ∧ 1536 < 1024 ^ 4 ∧ formatFileSize 1536 = formatByteSize_spec 1536 :=
  ⟨by decide, by norm_num, formatFileSize_refines_spec 1536 (by decide) (by norm_num)⟩

/-- C6 evidence: on an empty page, showNotification inserts exactly one
banner matching the selector .alert immediately, but after the scheduled
5000ms delay elapses and the callback runs, the banner is merely hidden and
still present in the container: one element matching the removal selector
remains, not zero as the claim states. -/
theorem banner_remains_after_delay :
    alertCount ((showNotification "x" "info" emptyPage).container) = 1 ∧
    alertCount ((elapseTimers (showNotification "x" "info" emptyPage)).container) = 1 ∧
    ((elapseTimers (showNotification "x" "info" emptyPage)).container.all
      fun e => ! e.visible) = true := by
  decide

/-- C7: formatFileSize, formatDate relative to a fixed host environment, and
validateFile are deterministic: two calls on equal inputs give equal
outputs, there being no state besides the arguments. -/
theorem utilities_deterministic (b₁ b₂ : Nat) (env : HostEnv) (s₁ s₂ : String)
    (f₁ f₂ : FileDesc) (hb : b₁ = b₂) (hs : s₁ = s₂) (hf : f₁ = f₂) :
    formatFileSize b₁ = formatFileSize b₂ ∧ formatDate env s₁ = formatDate env s₂ ∧
      validateFile f₁ = validateFile f₂ := by
  subst hb hs hf
  exact ⟨rfl, rfl, rfl⟩

/-- C7 witness at concrete equal inputs. -/
theorem utilities_deterministic_witness :
    formatFileSize 7 = formatFileSize 7 ∧
    formatDate hostEnvExample "2024-01-01" = formatDate hostEnvExample "2024-01-01" ∧
    validateFile (FileDesc.mk "image/png" 10) = validateFile (FileDesc.mk "image/png" 10) :=
  utilities_deterministic 7 7 hostEnvExample "2024-01-01" "2024-01-01"
    (FileDesc.mk "image/png" 10) (FileDesc.mk "image/png" 10) rfl rfl rfl

/-- C8: the state-passing embedding of validateFile returns the file
descriptor unchanged in every branch, and its result component is the pure
result, so the call never mutates its input. -/
theorem validateFile_preserves_input (f : FileDesc) :
    (validateFileRun f).2 = f ∧ (validateFileRun f).1 = validateFile f := by
  unfold validateFileRun validateFile
  split_ifs <;> exact ⟨rfl, rfl⟩

/-- C9: for every host environment and every string the host cannot parse as
a date, formatDate returns the implementation-defined invalid-date display
string of the environment; no branch produces an error. -/
theorem formatDate_unparsable_fallback (env : HostEnv) (s : String)
    (h : env.parseDate s = none) :
    formatDate env s = env.invalidDateString := by
  unfold formatDate
  rw [h]

/-- C9 witness in the concrete host environment. -/
theorem formatDate_unparsable_fallback_witness :
    hostEnvExample.parseDate "not a date" = none ∧
    formatDate hostEnvExample "not a date" = hostEnvExample.invalidDateString :=
  ⟨rfl, formatDate_unparsable_fallback hostEnvExample "not a date" rfl⟩

/-- C10: a file of an allowed type whose size is exactly 500 * 1024 * 1024
bytes is accepted, because the size ceiling comparison is strict. -/
theorem validateFile_boundary (f : FileDesc) (ht : f.type ∈ allowedTypes)
    (hs : f.size = 500 * 1024 * 1024) :
    validateFile f = ValidationResult.valid := by
  have hng : ¬ maxSize < f.size := by
    rw [hs]
    unfold maxSize
    omega
  simp [validateFile, ht, hng]

/-- C10 witness at the exact boundary size. -/
theorem validateFile_boundary_witness :
    (FileDesc.mk "image/png" (500 * 1024 * 1024)).type ∈ allowedTypes ∧
    validateFile (FileDesc.mk "image/png" (500 * 1024 * 1024)) = ValidationResult.valid :=
  ⟨by decide, validateFile_boundary (FileDesc.mk "image/png" (500 * 1024 * 1024))
    (by decide) rfl⟩

end MainJs
